import Mathlib

/-!
Verification of the voltammetric-analyzer core (`src/app.py`).

The core functions `apply_technique`, `process_lsv`, `process_dpv`,
`process_swv` and `optimize_asv_parameters` are shallowly embedded below.
Numeric values (numpy float64 samples and Python parameter values) are
modelled as exact rationals `ℚ`; 1-D numpy arrays as `List ℚ`; Python
dicts as association lists in insertion order; a Python call that can
raise is an `Except PyError` computation.  A function body that falls off
the end returns Python `None`, modelled with `Option`.
-/

set_option autoImplicit false

/-- Errors the embedded code can raise: `keyError k` models a Python
`KeyError` from a dict subscript `d[k]`; `valueError msg` models a Python
`ValueError` (raised by scipy when the savgol window exceeds the input
length, and by numpy when two array shapes cannot be broadcast).  The
spec's error taxonomy calls the scipy/numpy `ValueError` a
`ProcessingError`. -/
inductive PyError where
  | keyError (key : String)
  | valueError (msg : String)
deriving DecidableEq, Repr

deriving instance DecidableEq for Except

/-- Message of the `ValueError` scipy raises from `savgol_filter` when the
input is shorter than the window. -/
def savgolLenMsg : String :=
  "window_length must be less than or equal to the size of x"

/-- Message of the `ValueError` numpy raises when subtracting two 1-D
arrays whose shapes cannot be broadcast together. -/
def broadcastMsg : String :=
  "operands could not be broadcast together"

/-- Python dict subscript `d[k]`: the value at `k`, or `KeyError k`. -/
def pyLookup {α : Type} (d : List (String × α)) (k : String) :
    Except PyError α :=
  match d.lookup k with
  | some v => Except.ok v
  | none => Except.error (PyError.keyError k)

/-- numpy slice `x[::2]`: every second element starting at index 0.
Slicing a numpy array yields a view; no element is copied or written. -/
def evens : List ℚ → List ℚ
  | [] => []
  | [a] => [a]
  | a :: _ :: t => a :: evens t

/-- numpy slice `x[1::2]`: every second element starting at index 1. -/
def odds (l : List ℚ) : List ℚ :=
  evens (l.drop 1)

/-- numpy element-wise subtraction `a - b` of two 1-D arrays, with the
1-D broadcasting rule: equal lengths subtract pointwise; a length-1
operand is broadcast across the other; any other length mismatch raises
`ValueError`.  The result is a freshly allocated array. -/
def npSub (a b : List ℚ) : Except PyError (List ℚ) :=
  if a.length = b.length then
    Except.ok (List.zipWith (fun x y => x - y) a b)
  else if a.length = 1 then
    Except.ok (b.map (fun y => a.getD 0 0 - y))
  else if b.length = 1 then
    Except.ok (a.map (fun x => x - b.getD 0 0))
  else
    Except.error (PyError.valueError broadcastMsg)

/-- Sum of the 21 window samples `w` weighted by `k ^ p` (`k` the index of
the sample in the window), i.e. `Σ k^p * w[k]`.  These are the moments
entering the normal equations of a least-squares polynomial fit. -/
def momentSum (p : Nat) (w : List ℚ) : ℚ :=
  (w.enum.map (fun kv => ((kv.1 : ℚ) ^ p) * kv.2)).sum

/-- Determinant of a 3×3 matrix given row by row. -/
def det3 (a b c d e f g h i : ℚ) : ℚ :=
  a * (e * i - f * h) - b * (d * i - f * g) + c * (d * h - e * g)

/-- Least-squares quadratic fit through the 21 points `(k, w[k])`,
`k = 0..20`, evaluated at abscissa `t`: solves the normal equations
`[[S4,S3,S2],[S3,S2,S1],[S2,S1,S0]] β = [T2,T1,T0]` by Cramer's rule,
where `Sp = Σ k^p` over `k = 0..20` and `Tp = Σ k^p w[k]`, and returns
`β0 t² + β1 t + β2`.  This is scipy's polyfit-based edge handling of
`savgol_filter` (mode `interp`). -/
def quadFitEval (w : List ℚ) (t : ℚ) : ℚ :=
  let s0 : ℚ := 21
  let s1 : ℚ := 210
  let s2 : ℚ := 2870
  let s3 : ℚ := 44100
  let s4 : ℚ := 722666
  let t0 := momentSum 0 w
  let t1 := momentSum 1 w
  let t2 := momentSum 2 w
  let dd := det3 s4 s3 s2 s3 s2 s1 s2 s1 s0
  let b0 := det3 t2 s3 s2 t1 s2 s1 t0 s1 s0 / dd
  let b1 := det3 s4 t2 s2 s3 t1 s1 s2 t0 s0 / dd
  let b2 := det3 s4 s3 t2 s3 s2 t1 s2 s1 t0 / dd
  b0 * t ^ 2 + b1 * t + b2

/-- Interior Savitzky–Golay convolution at index `i` (full window fits):
`Σ_{j=0}^{20} c_{j-10} * x[i-10+j]` with the closed-form degree-2 window-21
smoothing coefficients `c_j = (987 - 15 j²) / 9177`. -/
def sgConv (x : List ℚ) (i : Nat) : ℚ :=
  ((List.range 21).map
    (fun (j : Nat) =>
      let c : ℚ := (((987 : ℤ) - 15 * ((j : ℤ) - 10) ^ 2 : ℤ) : ℚ) / 9177
      let idx : Nat := i - 10 + j
      c * x.getD idx 0)).sum

/-- One output sample of the savgol filter: the first 10 and last 10
samples come from the quadratic edge fits over the first / last 21 input
samples (scipy mode `interp`), the interior from the convolution. -/
def savgolAt (x : List ℚ) (i : Nat) : ℚ :=
  let n := x.length
  if i < 10 then quadFitEval (x.take 21) (i : ℚ)
  else if n - 10 ≤ i then
    quadFitEval (x.drop (n - 21)) ((i - (n - 21) : Nat) : ℚ)
  else sgConv x i

/-- Modelled from the scipy documentation (scipy is an external library,
not part of this repository): `scipy.signal.savgol_filter(x,
window_length=21, polyorder=2)` with the default mode `interp`.  Inputs
shorter than the window raise a `ValueError`; otherwise the output is a
freshly allocated array of the same length, smoothed by local quadratic
least-squares fits. -/
def savgol_filter (x : List ℚ) : Except PyError (List ℚ) :=
  if x.length < 21 then Except.error (PyError.valueError savgolLenMsg)
  else Except.ok ((List.range x.length).map (savgolAt x))

/-- `process_lsv(potential, current, params)` from `src/app.py` lines
15–18: reads `params['scan_rate']` (unused afterwards), then returns
`savgol_filter(current, window_length=21, polyorder=2)`. -/
def process_lsv (potential current : List ℚ) (params : List (String × ℚ)) :
    Except PyError (List ℚ) := do
  let _scan_rate ← pyLookup params "scan_rate"
  let corrected ← savgol_filter current
  return corrected

/-- `process_dpv(potential, current, params)` from `src/app.py` lines
20–27: reads `params['amplitude']` and `params['step_potential']` (both
unused afterwards), deinterleaves `current` into `current[::2]` and
`current[1::2]`, and returns their numpy difference. -/
def process_dpv (potential current : List ℚ) (params : List (String × ℚ)) :
    Except PyError (List ℚ) := do
  let _pulse_amplitude ← pyLookup params "amplitude"
  let _step_potential ← pyLookup params "step_potential"
  let forward_current := evens current
  let backward_current := odds current
  let difference_current ← npSub forward_current backward_current
  return difference_current

/-- `process_swv(potential, current, params)` from `src/app.py` lines
29–36: reads `params['frequency']` and `params['amplitude']` (both unused
afterwards), then performs the same deinterleave-and-difference as
`process_dpv`. -/
def process_swv (potential current : List ℚ) (params : List (String × ℚ)) :
    Except PyError (List ℚ) := do
  let _frequency ← pyLookup params "frequency"
  let _amplitude ← pyLookup params "amplitude"
  let forward_current := evens current
  let backward_current := odds current
  let net_current ← npSub forward_current backward_current
  return net_current

/-- `apply_technique(potential, current, technique, params)` from
`src/app.py` lines 7–13: dispatches on the technique string; when no
branch matches, the Python function falls off the end and returns `None`
(modelled as `Option.none`) without raising. -/
def apply_technique (potential current : List ℚ) (technique : String)
    (params : List (String × ℚ)) : Except PyError (Option (List ℚ)) :=
  if technique = "LSV" then
    (process_lsv potential current params).map Option.some
  else if technique = "DPV" then
    (process_dpv potential current params).map Option.some
  else if technique = "SWV" then
    (process_swv potential current params).map Option.some
  else
    Except.ok Option.none

/-- A Sweep: the two columns `data['Potential'].values` and
`data['Current'].values` of the uploaded dataset. -/
structure Sweep where
  potential : List ℚ
  current : List ℚ

/-- The hardcoded LSV default `{'scan_rate': 0.05}` (0.05 = 1/20). -/
def lsvDefaults : List (String × ℚ) := [("scan_rate", 1/20)]

/-- The hardcoded DPV defaults `{'amplitude': 0.025, 'step_potential':
0.004}` (0.025 = 1/40, 0.004 = 1/250). -/
def dpvDefaults : List (String × ℚ) :=
  [("amplitude", 1/40), ("step_potential", 1/250)]

/-- The hardcoded SWV defaults `{'frequency': 25, 'amplitude': 0.025}`. -/
def swvDefaults : List (String × ℚ) :=
  [("frequency", 25), ("amplitude", 1/40)]

/-- The hardcoded per-technique default table of `optimize_asv_parameters`
(`src/app.py` lines 39–43). -/
def technique_params : List (String × List (String × ℚ)) :=
  [("LSV", lsvDefaults), ("DPV", dpvDefaults), ("SWV", swvDefaults)]

/-- Python dict assignment `d[k] = v` semantics used for `**`-merging:
overwrite in place when the key exists (keeping its position), otherwise
append at the end. -/
def dictInsert (d : List (String × ℚ)) (k : String) (v : ℚ) :
    List (String × ℚ) :=
  if (d.lookup k).isSome then
    d.map (fun kv => if kv.1 = k then (k, v) else kv)
  else d ++ [(k, v)]

/-- Python dict literal `{..base, **extra}`: start from `base` and assign
each `extra` entry in order. -/
def pyMergeInto (base extra : List (String × ℚ)) : List (String × ℚ) :=
  extra.foldl (fun d kv => dictInsert d kv.1 kv.2) base

/-- `optimize_asv_parameters(data, metal, technique)` from `src/app.py`
lines 38–56: looks `technique` up in the default table (a `KeyError` when
absent), invokes `apply_technique` on the full dataset with those defaults
(the processed result is discarded, but any error propagates), and returns
`{'deposition_potential': -1.2, 'deposition_time': 120, **defaults}`
(-1.2 = -6/5).  `metal` is never read. -/
def optimize_asv_parameters (data : Sweep) (metal : String)
    (technique : String) : Except PyError (List (String × ℚ)) := do
  let defaults ← pyLookup technique_params technique
  let _processed_current ←
    apply_technique data.potential data.current technique defaults
  return pyMergeInto
    [("deposition_potential", -6/5), ("deposition_time", 120)] defaults

/-! ### Reduction helpers for the `Except` monad -/

@[simp] theorem exceptOkBind {α β : Type} (a : α)
    (f : α → Except PyError β) : (Except.ok a : Except PyError α) >>= f = f a :=
  rfl

@[simp] theorem exceptErrBind {α β : Type} (e : PyError)
    (f : α → Except PyError β) :
    (Except.error e : Except PyError α) >>= f = Except.error e :=
  rfl

@[simp] theorem exceptOkMap {α β : Type} (a : α) (f : α → β) :
    (Except.ok a : Except PyError α).map f = Except.ok (f a) :=
  rfl

@[simp] theorem exceptErrMap {α β : Type} (e : PyError) (f : α → β) :
    (Except.error e : Except PyError α).map f = Except.error e :=
  rfl

@[simp] theorem exceptPure {α : Type} (a : α) :
    (pure a : Except PyError α) = Except.ok a :=
  rfl

/-! ### Structure of the deinterleave-and-difference computation -/

theorem evens_cons_cons (a b : ℚ) (t : List ℚ) :
    evens (a :: b :: t) = a :: evens t :=
  rfl

theorem odds_cons_cons (a b : ℚ) (t : List ℚ) :
    odds (a :: b :: t) = b :: odds t := by
  cases t with
  | nil => rfl
  | cons c t2 => rfl

theorem evens_length : ∀ l : List ℚ, (evens l).length = (l.length + 1) / 2
  | [] => rfl
  | [_] => by simp [evens]
  | _ :: _ :: t => by
    have ih := evens_length t
    rw [evens_cons_cons]
    simp only [List.length_cons, ih]
    omega

theorem odds_length (l : List ℚ) : (odds l).length = l.length / 2 := by
  cases l with
  | nil => rfl
  | cons a t =>
    show (evens t).length = (a :: t).length / 2
    rw [evens_length]
    simp only [List.length_cons]

/-- When the input has even length the two stride-2 slices have equal
length, so the numpy subtraction takes the pointwise (no-broadcast)
branch. -/
theorem npSub_evens_odds (l : List ℚ) (h : Even l.length) :
    npSub (evens l) (odds l) =
      Except.ok (List.zipWith (fun x y => x - y) (evens l) (odds l)) := by
  obtain ⟨k, hk⟩ := h
  have hlen : (evens l).length = (odds l).length := by
    rw [evens_length, odds_length]
    omega
  simp [npSub, hlen]

/-- Element `i` of the pointwise difference of the two stride-2 slices is
`l[2i] - l[2i+1]`. -/
theorem pairs_getD : ∀ (l : List ℚ) (i : Nat), i < l.length / 2 →
    (List.zipWith (fun x y => x - y) (evens l) (odds l)).getD i 0
      = l.getD (2 * i) 0 - l.getD (2 * i + 1) 0
  | [], i, h => by simp only [List.length_nil] at h; omega
  | [_], i, h => by simp only [List.length_cons, List.length_nil] at h; omega
  | a :: b :: t, 0, _ => by
    rw [evens_cons_cons, odds_cons_cons]
    simp
  | a :: b :: t, (i + 1), h => by
    have hlt : i < t.length / 2 := by
      simp only [List.length_cons] at h
      omega
    have ih := pairs_getD t i hlt
    rw [evens_cons_cons, odds_cons_cons, List.zipWith_cons_cons,
      List.getD_cons_succ, ih]
    have e1 : (a :: b :: t).getD (2 * (i + 1)) 0 = t.getD (2 * i) 0 := by
      have e : 2 * (i + 1) = 2 * i + 1 + 1 := by ring
      rw [e, List.getD_cons_succ, List.getD_cons_succ]
    have e2 : (a :: b :: t).getD (2 * (i + 1) + 1) 0
        = t.getD (2 * i + 1) 0 := by
      have e : 2 * (i + 1) + 1 = 2 * i + 1 + 1 + 1 := by ring
      rw [e, List.getD_cons_succ, List.getD_cons_succ]
    rw [e1, e2]

/-- C1: For every pair of equal-length numeric sequences with even length
N (and parameter dicts holding the keys each processor reads), both
`process_dpv` and `process_swv` — and `apply_technique` at 'DPV'/'SWV' —
return a sequence of length N/2 whose i-th element is
`current[2i] - current[2i+1]`. -/
theorem c1_even_length_pair_difference
    (potential current : List ℚ) (pd ps : List (String × ℚ))
    (a s f a2 : ℚ)
    (hA : pyLookup pd "amplitude" = Except.ok a)
    (hS : pyLookup pd "step_potential" = Except.ok s)
    (hF : pyLookup ps "frequency" = Except.ok f)
    (hA2 : pyLookup ps "amplitude" = Except.ok a2)
    (hEven : Even current.length) :
    ∃ out : List ℚ,
      process_dpv potential current pd = Except.ok out ∧
      process_swv potential current ps = Except.ok out ∧
      apply_technique potential current "DPV" pd = Except.ok (some out) ∧
      apply_technique potential current "SWV" ps = Except.ok (some out) ∧
      out.length = current.length / 2 ∧
      ∀ i, i < out.length →
        out.getD i 0 = current.getD (2 * i) 0 - current.getD (2 * i + 1) 0 := by
  refine ⟨List.zipWith (fun x y => x - y) (evens current) (odds current),
    ?_, ?_, ?_, ?_, ?_, ?_⟩
  · simp [process_dpv, hA, hS, npSub_evens_odds current hEven]
  · simp [process_swv, hF, hA2, npSub_evens_odds current hEven]
  · simp [apply_technique, process_dpv, hA, hS,
      npSub_evens_odds current hEven]
  · simp [apply_technique, process_swv, hF, hA2,
      npSub_evens_odds current hEven]
  · rw [List.length_zipWith, evens_length, odds_length]
    omega
  · intro i hi
    rw [List.length_zipWith, evens_length, odds_length] at hi
    exact pairs_getD current i (by omega)

/-- Closed instance of C1 at the spec's concrete scenario
Current = [10, 2, 8, 4]. -/
theorem c1_even_length_pair_difference_witness :
    ∃ out : List ℚ,
      process_dpv [0, 1, 2, 3] [10, 2, 8, 4] dpvDefaults = Except.ok out ∧
      process_swv [0, 1, 2, 3] [10, 2, 8, 4] swvDefaults = Except.ok out ∧
      apply_technique [0, 1, 2, 3] [10, 2, 8, 4] "DPV" dpvDefaults
        = Except.ok (some out) ∧
      apply_technique [0, 1, 2, 3] [10, 2, 8, 4] "SWV" swvDefaults
        = Except.ok (some out) ∧
      out.length = [(10 : ℚ), 2, 8, 4].length / 2 ∧
      ∀ i, i < out.length →
        out.getD i 0 = [(10 : ℚ), 2, 8, 4].getD (2 * i) 0
          - [(10 : ℚ), 2, 8, 4].getD (2 * i + 1) 0 :=
  c1_even_length_pair_difference [0, 1, 2, 3] [10, 2, 8, 4]
    dpvDefaults swvDefaults (1/40) (1/250) 25 (1/40)
    rfl rfl rfl rfl (by decide)

/-- C2 (code evaluated at the failing inputs): on an odd-length current of
5 samples the numpy subtraction of the length-3 and length-2 slices raises
a broadcast ValueError instead of dropping the trailing sample; on 3
samples the single backward sample is broadcast, yielding length 2 instead
of 1; inputs shorter than 2 samples do yield an empty result without
error. -/
theorem c2_odd_length_divergence :
    process_dpv [0, 1, 2, 3, 4] [10, 2, 8, 4, 6] dpvDefaults
      = Except.error (PyError.valueError broadcastMsg) ∧
    process_swv [0, 1, 2, 3, 4] [10, 2, 8, 4, 6] swvDefaults
      = Except.error (PyError.valueError broadcastMsg) ∧
    process_dpv [0, 1, 2] [10, 2, 8] dpvDefaults = Except.ok [8, 6] ∧
    process_dpv [0] [5] dpvDefaults = Except.ok [] ∧
    process_dpv [] [] dpvDefaults = Except.ok [] := by
  refine ⟨rfl, rfl, ?_, rfl, rfl⟩
  have h1 : pyLookup dpvDefaults "amplitude" = Except.ok (1/40) := rfl
  have h2 : pyLookup dpvDefaults "step_potential" = Except.ok (1/250) := rfl
  simp only [process_dpv, h1, h2, exceptOkBind]
  norm_num [evens, odds, npSub]

/-- C3: dispatching on a technique outside LSV/DPV/SWV makes
`apply_technique` fall off the end of the function, returning Python
`None` and raising nothing. -/
theorem c3_unknown_technique_silent_none
    (potential current : List ℚ) (technique : String)
    (params : List (String × ℚ))
    (h1 : technique ≠ "LSV") (h2 : technique ≠ "DPV")
    (h3 : technique ≠ "SWV") :
    apply_technique potential current technique params
      = Except.ok none := by
  simp [apply_technique, h1, h2, h3]

/-- Closed instance of C3 at technique 'CV'. -/
theorem c3_unknown_technique_silent_none_witness :
    apply_technique [0] [0] "CV" [] = Except.ok none :=
  c3_unknown_technique_silent_none [0] [0] "CV" []
    (by decide) (by decide) (by decide)

/-- C6: given parameter dicts holding the keys each processor reads,
`process_swv` computes exactly what `process_dpv` computes — the two
bodies share the deinterleave-and-difference algorithm verbatim. -/
theorem c6_swv_equals_dpv
    (potential current : List ℚ) (pd ps : List (String × ℚ))
    (a s f a2 : ℚ)
    (hA : pyLookup pd "amplitude" = Except.ok a)
    (hS : pyLookup pd "step_potential" = Except.ok s)
    (hF : pyLookup ps "frequency" = Except.ok f)
    (hA2 : pyLookup ps "amplitude" = Except.ok a2) :
    process_swv potential current ps = process_dpv potential current pd := by
  simp [process_swv, process_dpv, hA, hS, hF, hA2]

/-- Closed instance of C6 on Current = [10, 2, 8, 4]: both processors
agree and both produce [8, 4]. -/
theorem c6_swv_equals_dpv_witness :
    process_swv [0, 1, 2, 3] [10, 2, 8, 4] swvDefaults
      = process_dpv [0, 1, 2, 3] [10, 2, 8, 4] dpvDefaults ∧
    process_dpv [0, 1, 2, 3] [10, 2, 8, 4] dpvDefaults
      = Except.ok [8, 4] :=
  ⟨c6_swv_equals_dpv [0, 1, 2, 3] [10, 2, 8, 4] dpvDefaults swvDefaults
    (1/40) (1/250) 25 (1/40) rfl rfl rfl rfl,
   by
    have h1 : pyLookup dpvDefaults "amplitude" = Except.ok (1/40) := rfl
    have h2 : pyLookup dpvDefaults "step_potential" = Except.ok (1/250) := rfl
    simp only [process_dpv, h1, h2, exceptOkBind]
    norm_num [evens, odds, npSub]⟩

/-- C4: with a parameter dict holding 'scan_rate', `process_lsv` on a
current sequence shorter than the 21-sample smoothing window fails with
the error the spec taxonomy names ProcessingError (scipy's ValueError for
a window longer than the input). -/
theorem c4_lsv_short_input_error
    (potential current : List ℚ) (params : List (String × ℚ)) (sr : ℚ)
    (hScan : pyLookup params "scan_rate" = Except.ok sr)
    (hShort : current.length < 21) :
    process_lsv potential current params
      = Except.error (PyError.valueError savgolLenMsg) := by
  simp [process_lsv, hScan, savgol_filter, hShort]

/-- Closed instance of C4 at a single-sample input. -/
theorem c4_lsv_short_input_error_witness :
    process_lsv [0] [5] lsvDefaults
      = Except.error (PyError.valueError savgolLenMsg) :=
  c4_lsv_short_input_error [0] [5] lsvDefaults (1/20) rfl (by decide)

/-- C7: with a parameter dict holding 'scan_rate', `process_lsv` on a
current sequence of length at least 21 succeeds and returns a sequence of
exactly the input length. -/
theorem c7_lsv_length_preserved
    (potential current : List ℚ) (params : List (String × ℚ)) (sr : ℚ)
    (hScan : pyLookup params "scan_rate" = Except.ok sr)
    (hLen : 21 ≤ current.length) :
    ∃ out : List ℚ,
      process_lsv potential current params = Except.ok out ∧
      out.length = current.length := by
  have hnot : ¬ current.length < 21 := by omega
  refine ⟨(List.range current.length).map (savgolAt current), ?_, ?_⟩
  · simp [process_lsv, hScan, savgol_filter, hnot]
  · simp

/-- Closed instance of C7 at a 21-sample input. -/
theorem c7_lsv_length_preserved_witness :
    ∃ out : List ℚ,
      process_lsv (List.replicate 21 0) (List.replicate 21 0) lsvDefaults
        = Except.ok out ∧
      out.length = (List.replicate 21 (0 : ℚ)).length :=
  c7_lsv_length_preserved (List.replicate 21 0) (List.replicate 21 0)
    lsvDefaults (1/20) rfl (by decide)

/-- C5 as frozen is false: the Sweep ⟨[0], [0]⟩ satisfies the data-model
invariant (equal lengths, length ≥ 1), yet `optimize_asv_parameters` on it
with technique 'LSV' propagates the LSV ProcessingError instead of
returning the defaults dict. -/
theorem c5_short_sweep_counterexample :
    optimize_asv_parameters ⟨[0], [0]⟩ "Pb" "LSV"
      = Except.error (PyError.valueError savgolLenMsg) ∧
    optimize_asv_parameters ⟨[0], [0]⟩ "Pb" "LSV"
      ≠ Except.ok [("deposition_potential", -6/5), ("deposition_time", 120),
          ("scan_rate", 1/20)] := by
  constructor
  · rfl
  · intro hcontra
    rw [show optimize_asv_parameters ⟨[0], [0]⟩ "Pb" "LSV"
      = Except.error (PyError.valueError savgolLenMsg) from rfl] at hcontra
    exact Except.noConfusion hcontra

/-- C5 (amended): for every Sweep on which the dispatcher call with the
technique's defaults succeeds, and for every metal string,
`optimize_asv_parameters` returns exactly the technique's hardcoded
defaults merged with deposition_potential -1.2 and deposition_time 120;
in particular for 'DPV' the result is exactly
{deposition_potential: -1.2, deposition_time: 120, amplitude: 0.025,
step_potential: 0.004}. -/
theorem c5_defaults_returned (data : Sweep) (metal : String) :
    (∀ r, apply_technique data.potential data.current "LSV" lsvDefaults
        = Except.ok r →
      optimize_asv_parameters data metal "LSV"
        = Except.ok [("deposition_potential", -6/5),
            ("deposition_time", 120), ("scan_rate", 1/20)]) ∧
    (∀ r, apply_technique data.potential data.current "DPV" dpvDefaults
        = Except.ok r →
      optimize_asv_parameters data metal "DPV"
        = Except.ok [("deposition_potential", -6/5),
            ("deposition_time", 120), ("amplitude", 1/40),
            ("step_potential", 1/250)]) ∧
    (∀ r, apply_technique data.potential data.current "SWV" swvDefaults
        = Except.ok r →
      optimize_asv_parameters data metal "SWV"
        = Except.ok [("deposition_potential", -6/5),
            ("deposition_time", 120), ("frequency", 25),
            ("amplitude", 1/40)]) := by
  refine ⟨?_, ?_, ?_⟩ <;> intro r h
  · have hl : pyLookup technique_params "LSV" = Except.ok lsvDefaults := rfl
    simp only [optimize_asv_parameters, hl, exceptOkBind, h, exceptPure]
    rfl
  · have hl : pyLookup technique_params "DPV" = Except.ok dpvDefaults := rfl
    simp only [optimize_asv_parameters, hl, exceptOkBind, h, exceptPure]
    rfl
  · have hl : pyLookup technique_params "SWV" = Except.ok swvDefaults := rfl
    simp only [optimize_asv_parameters, hl, exceptOkBind, h, exceptPure]
    rfl

/-- Closed instance of the amended C5: the DPV result on the spec's
concrete Sweep. -/
theorem c5_defaults_returned_witness :
    optimize_asv_parameters ⟨[0, 1, 2, 3], [10, 2, 8, 4]⟩ "Pb" "DPV"
      = Except.ok [("deposition_potential", -6/5), ("deposition_time", 120),
          ("amplitude", 1/40), ("step_potential", 1/250)] :=
  (c5_defaults_returned ⟨[0, 1, 2, 3], [10, 2, 8, 4]⟩ "Pb").2.1
    (some (List.zipWith (fun x y => x - y) (evens [10, 2, 8, 4])
      (odds [10, 2, 8, 4]))) rfl

/-- C8: whatever error the dispatcher/processor call raises on the full
dataset, `optimize_asv_parameters` re-raises it unchanged and produces no
parameter set. -/
theorem c8_optimizer_propagates_errors
    (data : Sweep) (metal technique : String)
    (defaults : List (String × ℚ)) (e : PyError)
    (hT : pyLookup technique_params technique = Except.ok defaults)
    (hFail : apply_technique data.potential data.current technique defaults
      = Except.error e) :
    optimize_asv_parameters data metal technique = Except.error e := by
  simp only [optimize_asv_parameters, hT, exceptOkBind, hFail,
    exceptErrBind]

/-- Closed instance of C8: the odd-length DPV broadcast failure comes out
of the optimizer unchanged. -/
theorem c8_optimizer_propagates_errors_witness :
    optimize_asv_parameters ⟨[0, 1, 2, 3, 4], [10, 2, 8, 4, 6]⟩ "Pb" "DPV"
      = Except.error (PyError.valueError broadcastMsg) :=
  c8_optimizer_propagates_errors ⟨[0, 1, 2, 3, 4], [10, 2, 8, 4, 6]⟩
    "Pb" "DPV" dpvDefaults (PyError.valueError broadcastMsg) rfl rfl

/-- C10: a technique outside LSV/DPV/SWV makes `optimize_asv_parameters`
raise `KeyError` at the hardcoded default table, before any processing —
while `apply_technique` on the same technique falls through silently with
`None`. -/
theorem c10_optimizer_keyerror_on_unknown
    (data : Sweep) (metal technique : String)
    (potential current : List ℚ) (params : List (String × ℚ))
    (h1 : technique ≠ "LSV") (h2 : technique ≠ "DPV")
    (h3 : technique ≠ "SWV") :
    optimize_asv_parameters data metal technique
      = Except.error (PyError.keyError technique) ∧
    apply_technique potential current technique params
      = Except.ok none := by
  constructor
  · have b1 : (technique == "LSV") = false := beq_eq_false_iff_ne.mpr h1
    have b2 : (technique == "DPV") = false := beq_eq_false_iff_ne.mpr h2
    have b3 : (technique == "SWV") = false := beq_eq_false_iff_ne.mpr h3
    have hlk : pyLookup technique_params technique
        = Except.error (PyError.keyError technique) := by
      simp [pyLookup, technique_params, List.lookup, b1, b2, b3]
    simp only [optimize_asv_parameters, hlk, exceptErrBind]
  · simp [apply_technique, h1, h2, h3]

/-- Closed instance of C10 at technique 'CV'. -/
theorem c10_optimizer_keyerror_on_unknown_witness :
    optimize_asv_parameters ⟨[0], [0]⟩ "Pb" "CV"
      = Except.error (PyError.keyError "CV") ∧
    apply_technique [0] [0] "CV" [] = Except.ok none :=
  c10_optimizer_keyerror_on_unknown ⟨[0], [0]⟩ "Pb" "CV" [0] [0] []
    (by decide) (by decide) (by decide)

/-! ### Array-ownership model for the frame claim

To state that the Python code never mutates the caller's numpy arrays,
the same five functions are embedded once more at the level of an
explicit array heap: input arrays live at addresses in a `Heap`, every
array-producing numpy/scipy operation allocates a fresh address (as the
source operations do: slicing yields views, subtraction and savgol
produce new arrays, and no statement in `src/app.py` assigns into an
existing array), and the frame property is that every pre-existing
address still holds its original array afterwards. -/

/-- A heap of 1-D numpy arrays, addressed by position. -/
abbrev Heap : Type := List (List ℚ)

/-- Read the array at address `a`. -/
def readArr (h : Heap) (a : Nat) : List ℚ :=
  List.getD h a []

/-- Allocate a fresh array: extends the heap, returning the new address.
No existing address is written. -/
def allocArr (h : Heap) (v : List ℚ) : Heap × Nat :=
  (h ++ [v], List.length h)

/-- `process_lsv` acting on the heap: reads the current array, allocates
the smoothed output. -/
def process_lsvH (h : Heap) (pA cA : Nat) (params : List (String × ℚ)) :
    Except PyError (Heap × Nat) := do
  let _scan_rate ← pyLookup params "scan_rate"
  let corrected ← savgol_filter (readArr h cA)
  return allocArr h corrected

/-- `process_dpv` acting on the heap: the two stride-2 slices are views
(no allocation, no write); the subtraction allocates the output. -/
def process_dpvH (h : Heap) (pA cA : Nat) (params : List (String × ℚ)) :
    Except PyError (Heap × Nat) := do
  let _pulse_amplitude ← pyLookup params "amplitude"
  let _step_potential ← pyLookup params "step_potential"
  let difference_current ←
    npSub (evens (readArr h cA)) (odds (readArr h cA))
  return allocArr h difference_current

/-- `process_swv` acting on the heap. -/
def process_swvH (h : Heap) (pA cA : Nat) (params : List (String × ℚ)) :
    Except PyError (Heap × Nat) := do
  let _frequency ← pyLookup params "frequency"
  let _amplitude ← pyLookup params "amplitude"
  let net_current ← npSub (evens (readArr h cA)) (odds (readArr h cA))
  return allocArr h net_current

/-- `apply_technique` acting on the heap: pure routing; the fall-through
branch touches nothing and returns `None`. -/
def apply_techniqueH (h : Heap) (pA cA : Nat) (technique : String)
    (params : List (String × ℚ)) : Except PyError (Heap × Option Nat) :=
  if technique = "LSV" then
    (process_lsvH h pA cA params).map (fun hr => (hr.1, some hr.2))
  else if technique = "DPV" then
    (process_dpvH h pA cA params).map (fun hr => (hr.1, some hr.2))
  else if technique = "SWV" then
    (process_swvH h pA cA params).map (fun hr => (hr.1, some hr.2))
  else
    Except.ok (h, none)

/-- `optimize_asv_parameters` acting on the heap: dispatches on the full
dataset (discarding the result address) and builds the returned dict,
which is not an array and allocates nothing in the array heap. -/
def optimize_asv_parametersH (h : Heap) (pA cA : Nat)
    (metal technique : String) :
    Except PyError (Heap × List (String × ℚ)) := do
  let defaults ← pyLookup technique_params technique
  let hr ← apply_techniqueH h pA cA technique defaults
  return (hr.1,
    pyMergeInto [("deposition_potential", -6/5), ("deposition_time", 120)]
      defaults)

theorem readArr_alloc (h : Heap) (v : List ℚ) (a : Nat)
    (ha : a < List.length h) :
    readArr (h ++ [v]) a = readArr h a :=
  List.getD_append h [v] [] a ha

theorem frame_lsvH (h : Heap) (pA cA : Nat) (params : List (String × ℚ))
    (h2 : Heap) (r : Nat)
    (hok : process_lsvH h pA cA params = Except.ok (h2, r)) :
    ∀ a, a < List.length h → readArr h2 a = readArr h a := by
  intro a ha
  cases hsc : pyLookup params "scan_rate" with
  | error e => simp [process_lsvH, hsc] at hok
  | ok v =>
    cases hsv : savgol_filter (readArr h cA) with
    | error e => simp [process_lsvH, hsc, hsv] at hok
    | ok w =>
      simp only [process_lsvH, hsc, exceptOkBind, hsv, exceptPure,
        allocArr, Except.ok.injEq, Prod.mk.injEq] at hok
      obtain ⟨hh2, hr⟩ := hok
      subst hh2
      exact readArr_alloc h w a ha

theorem frame_dpvH (h : Heap) (pA cA : Nat) (params : List (String × ℚ))
    (h2 : Heap) (r : Nat)
    (hok : process_dpvH h pA cA params = Except.ok (h2, r)) :
    ∀ a, a < List.length h → readArr h2 a = readArr h a := by
  intro a ha
  cases hp1 : pyLookup params "amplitude" with
  | error e => simp [process_dpvH, hp1] at hok
  | ok v1 =>
    cases hp2 : pyLookup params "step_potential" with
    | error e => simp [process_dpvH, hp1, hp2] at hok
    | ok v2 =>
      cases hd : npSub (evens (readArr h cA)) (odds (readArr h cA)) with
      | error e => simp [process_dpvH, hp1, hp2, hd] at hok
      | ok w =>
        simp only [process_dpvH, hp1, exceptOkBind, hp2, hd, exceptPure,
          allocArr, Except.ok.injEq, Prod.mk.injEq] at hok
        obtain ⟨hh2, hr⟩ := hok
        subst hh2
        exact readArr_alloc h w a ha

theorem frame_swvH (h : Heap) (pA cA : Nat) (params : List (String × ℚ))
    (h2 : Heap) (r : Nat)
    (hok : process_swvH h pA cA params = Except.ok (h2, r)) :
    ∀ a, a < List.length h → readArr h2 a = readArr h a := by
  intro a ha
  cases hp1 : pyLookup params "frequency" with
  | error e => simp [process_swvH, hp1] at hok
  | ok v1 =>
    cases hp2 : pyLookup params "amplitude" with
    | error e => simp [process_swvH, hp1, hp2] at hok
    | ok v2 =>
      cases hd : npSub (evens (readArr h cA)) (odds (readArr h cA)) with
      | error e => simp [process_swvH, hp1, hp2, hd] at hok
      | ok w =>
        simp only [process_swvH, hp1, exceptOkBind, hp2, hd, exceptPure,
          allocArr, Except.ok.injEq, Prod.mk.injEq] at hok
        obtain ⟨hh2, hr⟩ := hok
        subst hh2
        exact readArr_alloc h w a ha

theorem frame_applyH (h : Heap) (pA cA : Nat) (technique : String)
    (params : List (String × ℚ)) (h2 : Heap) (r : Option Nat)
    (hok : apply_techniqueH h pA cA technique params = Except.ok (h2, r)) :
    ∀ a, a < List.length h → readArr h2 a = readArr h a := by
  intro a ha
  unfold apply_techniqueH at hok
  by_cases t1 : technique = "LSV"
  · rw [if_pos t1] at hok
    cases hres : process_lsvH h pA cA params with
    | error e => rw [hres] at hok; exact absurd hok (by simp)
    | ok pr =>
      rw [hres] at hok
      simp only [exceptOkMap, Except.ok.injEq, Prod.mk.injEq] at hok
      obtain ⟨hh2, hr⟩ := hok
      subst hh2
      exact frame_lsvH h pA cA params pr.1 pr.2 hres a ha
  · rw [if_neg t1] at hok
    by_cases t2 : technique = "DPV"
    · rw [if_pos t2] at hok
      cases hres : process_dpvH h pA cA params with
      | error e => rw [hres] at hok; exact absurd hok (by simp)
      | ok pr =>
        rw [hres] at hok
        simp only [exceptOkMap, Except.ok.injEq, Prod.mk.injEq] at hok
        obtain ⟨hh2, hr⟩ := hok
        subst hh2
        exact frame_dpvH h pA cA params pr.1 pr.2 hres a ha
    · rw [if_neg t2] at hok
      by_cases t3 : technique = "SWV"
      · rw [if_pos t3] at hok
        cases hres : process_swvH h pA cA params with
        | error e => rw [hres] at hok; exact absurd hok (by simp)
        | ok pr =>
          rw [hres] at hok
          simp only [exceptOkMap, Except.ok.injEq, Prod.mk.injEq] at hok
          obtain ⟨hh2, hr⟩ := hok
          subst hh2
          exact frame_swvH h pA cA params pr.1 pr.2 hres a ha
      · rw [if_neg t3] at hok
        simp only [Except.ok.injEq, Prod.mk.injEq] at hok
        obtain ⟨hh2, hr⟩ := hok
        subst hh2
        rfl

theorem frame_optimizeH (h : Heap) (pA cA : Nat)
    (metal technique : String) (h2 : Heap) (ps : List (String × ℚ))
    (hok : optimize_asv_parametersH h pA cA metal technique
      = Except.ok (h2, ps)) :
    ∀ a, a < List.length h → readArr h2 a = readArr h a := by
  intro a ha
  cases hlk : pyLookup technique_params technique with
  | error e => simp [optimize_asv_parametersH, hlk] at hok
  | ok defaults =>
    cases hap : apply_techniqueH h pA cA technique defaults with
    | error e => simp [optimize_asv_parametersH, hlk, hap] at hok
    | ok hr =>
      simp only [optimize_asv_parametersH, hlk, exceptOkBind, hap,
        exceptPure, Except.ok.injEq, Prod.mk.injEq] at hok
      obtain ⟨hh2, hps⟩ := hok
      subst hh2
      exact frame_applyH h pA cA technique defaults hr.1 hr.2 hap a ha

/-- C9: in the array-heap model of the five core functions, every call
that returns leaves every pre-existing array unchanged — smoothing and
differencing allocate fresh output arrays and never write into the
caller's potential/current arrays. -/
theorem c9_inputs_never_mutated :
    (∀ (h : Heap) (pA cA : Nat) (params : List (String × ℚ))
      (h2 : Heap) (r : Nat),
      process_lsvH h pA cA params = Except.ok (h2, r) →
      ∀ a, a < List.length h → readArr h2 a = readArr h a) ∧
    (∀ (h : Heap) (pA cA : Nat) (params : List (String × ℚ))
      (h2 : Heap) (r : Nat),
      process_dpvH h pA cA params = Except.ok (h2, r) →
      ∀ a, a < List.length h → readArr h2 a = readArr h a) ∧
    (∀ (h : Heap) (pA cA : Nat) (params : List (String × ℚ))
      (h2 : Heap) (r : Nat),
      process_swvH h pA cA params = Except.ok (h2, r) →
      ∀ a, a < List.length h → readArr h2 a = readArr h a) ∧
    (∀ (h : Heap) (pA cA : Nat) (technique : String)
      (params : List (String × ℚ)) (h2 : Heap) (r : Option Nat),
      apply_techniqueH h pA cA technique params = Except.ok (h2, r) →
      ∀ a, a < List.length h → readArr h2 a = readArr h a) ∧
    (∀ (h : Heap) (pA cA : Nat) (metal technique : String)
      (h2 : Heap) (ps : List (String × ℚ)),
      optimize_asv_parametersH h pA cA metal technique
        = Except.ok (h2, ps) →
      ∀ a, a < List.length h → readArr h2 a = readArr h a) :=
  ⟨frame_lsvH, frame_dpvH, frame_swvH, frame_applyH, frame_optimizeH⟩

/-- Concrete heap used in the closed C9 instance for LSV. -/
def heapLsv : Heap := [List.replicate 21 0]

/-- Concrete heap used in the closed C9 instances for DPV/SWV. -/
def heapDpv : Heap := [[0, 1, 2, 3], [10, 2, 8, 4]]

/-- The array LSV allocates on `heapLsv`. -/
def lsvOutArr : List ℚ := (List.range 21).map (savgolAt (List.replicate 21 0))

/-- The array DPV/SWV allocate on `heapDpv`. -/
def dpvOutArr : List ℚ :=
  List.zipWith (fun x y => x - y) (evens [10, 2, 8, 4]) (odds [10, 2, 8, 4])

/-- Closed instances of C9: each of the five functions, run on a concrete
heap, leaves the pre-existing arrays readable unchanged. -/
theorem c9_inputs_never_mutated_witness :
    readArr (heapLsv ++ [lsvOutArr]) 0 = readArr heapLsv 0 ∧
    readArr (heapDpv ++ [dpvOutArr]) 1 = readArr heapDpv 1 ∧
    readArr (heapDpv ++ [dpvOutArr]) 0 = readArr heapDpv 0 ∧
    readArr (heapDpv ++ [dpvOutArr]) 1 = readArr heapDpv 1 ∧
    readArr (heapDpv ++ [dpvOutArr]) 0 = readArr heapDpv 0 :=
  ⟨c9_inputs_never_mutated.1 heapLsv 0 0 lsvDefaults
      (heapLsv ++ [lsvOutArr]) 1 rfl 0 (by decide),
   c9_inputs_never_mutated.2.1 heapDpv 0 1 dpvDefaults
      (heapDpv ++ [dpvOutArr]) 2 rfl 1 (by decide),
   c9_inputs_never_mutated.2.2.1 heapDpv 0 1 swvDefaults
      (heapDpv ++ [dpvOutArr]) 2 rfl 0 (by decide),
   c9_inputs_never_mutated.2.2.2.1 heapDpv 0 1 "DPV" dpvDefaults
      (heapDpv ++ [dpvOutArr]) (some 2) rfl 1 (by decide),
   c9_inputs_never_mutated.2.2.2.2 heapDpv 0 1 "Pb" "DPV"
      (heapDpv ++ [dpvOutArr])
      [("deposition_potential", -6/5), ("deposition_time", 120),
       ("amplitude", 1/40), ("step_potential", 1/250)] rfl 0 (by decide)⟩
